import Mathlib

/-!
Verification development for the stock-analysis orchestration script
(`src/app.py`).  The script defines five "Bing query tool" coroutines that
each create a hosted agent, create a thread, post a query, process a run,
read the reply and delete the agent; five thin wrapper functions; four
assistant-agent configurations; and a round-robin group chat with a
compound termination condition.

The remote service is modelled by an environment `Env` recording the
outcome of each remote call made during one tool invocation, and each tool
returns both its Python-level result (`Except PyExc Json`: `ok` means the
coroutine returned, `error` means it raised an uncaught exception) and the
trace of remote operations it performed, in order.
-/

/-- A Python exception, reduced to the two classes the code distinguishes:
`KeyError` (caught by the first `except` clause) and every other
exception (caught by the bare `except Exception` clause). -/
inductive PyExc where
  | keyError : PyExc
  | otherExc : PyExc
deriving DecidableEq, Repr

/-- A JSON-like value, as returned by `list_messages`.  Dictionary access
on a non-object or a missing index raises; a missing key raises
`KeyError`. -/
inductive Json where
  | str : String → Json
  | num : Int → Json
  | arr : List Json → Json
  | obj : List (String × Json) → Json

/-- Python `d[k]` on our JSON model: `KeyError` when the key is absent
from an object, `TypeError` (modelled `otherExc`) when the value is not
an object. -/
def jsonGet : Json → String → Except PyExc Json
  | Json.obj fields, k =>
      match fields.find? (fun p => p.1 == k) with
      | some p => Except.ok p.2
      | none => Except.error PyExc.keyError
  | _, _ => Except.error PyExc.otherExc

/-- Python `xs[i]` on our JSON model: `IndexError`/`TypeError`
(modelled `otherExc`) when out of range or not an array. -/
def jsonIdx : Json → Nat → Except PyExc Json
  | Json.arr xs, i =>
      match xs.get? i with
      | some x => Except.ok x
      | none => Except.error PyExc.otherExc
  | _, _ => Except.error PyExc.otherExc

/-- The answer extraction every tool performs on its final line:
`messages["data"][0]["content"][0]["text"]["value"]`. -/
def extractAnswer (messages : Json) : Except PyExc Json := do
  let d ← jsonGet messages "data"
  let d0 ← jsonIdx d 0
  let c ← jsonGet d0 "content"
  let c0 ← jsonIdx c 0
  let t ← jsonGet c0 "text"
  jsonGet t "value"

/-- One remote operation performed by a tool invocation.  The constructor
`deleteThread` is in the vocabulary of operations the service offers but
is never emitted by the code. -/
inductive Event where
  | createAgent : String → String → Event
  | createThread : Event
  | createMessage : String → Event
  | processRun : Event
  | listMessages : Event
  | deleteAgent : Event
  | deleteThread : Event
deriving DecidableEq, Repr

/-- Outcome of each remote call a single tool invocation may make.
`Except.error e` means the service call raised exception `e`. -/
structure Env where
  createAgentR : Except PyExc Unit
  createThreadR : Except PyExc Unit
  createMessageR : Except PyExc Unit
  runR : Except PyExc Unit
  listMessagesR : Except PyExc Json
  deleteAgentR : Except PyExc Unit

/-- The fixed string returned when `create_and_process_run` raised a
`KeyError`. -/
def errMissing : Json :=
  Json.str "Error: Unable to fetch data due to missing information."

/-- The fixed string returned when `create_and_process_run` raised any
other exception. -/
def errUnexpected : Json :=
  Json.str "Error: Unable to fetch data due to an unexpected issue."

/-- Common body of the five Bing query tools of `src/app.py` (they differ
only in the agent name, the instructions string and the user-message
content).  Mirrors the source line by line: create agent, create thread,
create message, then a try/except around `create_and_process_run` whose
handlers return the fixed error strings, then `list_messages`,
`delete_agent`, and finally the answer extraction (which is outside the
try/except).  Returns the Python result together with the ordered trace
of remote operations performed. -/
def bingToolCore (agentName instr content : String) (env : Env) :
    Except PyExc Json × List Event :=
  match env.createAgentR with
  | Except.error e => (Except.error e, [Event.createAgent agentName instr])
  | Except.ok _ =>
    match env.createThreadR with
    | Except.error e =>
        (Except.error e, [Event.createAgent agentName instr, Event.createThread])
    | Except.ok _ =>
      match env.createMessageR with
      | Except.error e =>
          (Except.error e,
           [Event.createAgent agentName instr, Event.createThread,
            Event.createMessage content])
      | Except.ok _ =>
        match env.runR with
        | Except.error PyExc.keyError =>
            (Except.ok errMissing,
             [Event.createAgent agentName instr, Event.createThread,
              Event.createMessage content, Event.processRun])
        | Except.error PyExc.otherExc =>
            (Except.ok errUnexpected,
             [Event.createAgent agentName instr, Event.createThread,
              Event.createMessage content, Event.processRun])
        | Except.ok _ =>
          match env.listMessagesR with
          | Except.error e =>
              (Except.error e,
               [Event.createAgent agentName instr, Event.createThread,
                Event.createMessage content, Event.processRun,
                Event.listMessages])
          | Except.ok messages =>
            match env.deleteAgentR with
            | Except.error e =>
                (Except.error e,
                 [Event.createAgent agentName instr, Event.createThread,
                  Event.createMessage content, Event.processRun,
                  Event.listMessages, Event.deleteAgent])
            | Except.ok _ =>
                (extractAnswer messages,
                 [Event.createAgent agentName instr, Event.createThread,
                  Event.createMessage content, Event.processRun,
                  Event.listMessages, Event.deleteAgent])

/-- `stock_price_trends_tool` of `src/app.py`. -/
def stock_price_trends_tool (stock_name : String) (env : Env) :
    Except PyExc Json × List Event :=
  bingToolCore "stock_price_trends_tool_agent"
    ("Focus on retrieving real-time stock prices, changes over the last few months, and summarize market trends for " ++ stock_name ++ ".")
    ("Please get stock price trends data for " ++ stock_name ++ ".")
    env

/-- `news_analysis_tool` of `src/app.py`. -/
def news_analysis_tool (stock_name : String) (env : Env) :
    Except PyExc Json × List Event :=
  bingToolCore "news_analysis_tool_agent"
    ("Focus on the latest news highlights for the stock " ++ stock_name ++ ".")
    ("Retrieve the latest news articles and summaries about " ++ stock_name ++ ".")
    env

/-- `market_sentiment_tool` of `src/app.py`. -/
def market_sentiment_tool (stock_name : String) (env : Env) :
    Except PyExc Json × List Event :=
  bingToolCore "market_sentiment_tool_agent"
    ("Focus on analyzing general market sentiment regarding " ++ stock_name ++ ".")
    ("Gather market sentiment, user opinions, and overall feeling about " ++ stock_name ++ ".")
    env

/-- `analyst_reports_tool` of `src/app.py`. -/
def analyst_reports_tool (stock_name : String) (env : Env) :
    Except PyExc Json × List Event :=
  bingToolCore "analyst_reports_tool_agent"
    ("Focus on any relevant analyst reports or professional analyses about " ++ stock_name ++ ".")
    ("Find recent analyst reports, price targets, or professional opinions on " ++ stock_name ++ ".")
    env

/-- `expert_opinions_tool` of `src/app.py`. -/
def expert_opinions_tool (stock_name : String) (env : Env) :
    Except PyExc Json × List Event :=
  bingToolCore "expert_opinions_tool_agent"
    ("Focus on industry expert or thought leader opinions regarding " ++ stock_name ++ ".")
    ("Collect expert opinions or quotes about " ++ stock_name ++ ".")
    env

/-- `stock_price_trends_agent` of `src/app.py`: delegates to the tool. -/
def stock_price_trends_agent (stock_name : String) (env : Env) :
    Except PyExc Json × List Event :=
  stock_price_trends_tool stock_name env

/-- `news_analysis_agent` of `src/app.py`: delegates to the tool. -/
def news_analysis_agent (stock_name : String) (env : Env) :
    Except PyExc Json × List Event :=
  news_analysis_tool stock_name env

/-- `market_sentiment_agent` of `src/app.py`: delegates to the tool. -/
def market_sentiment_agent (stock_name : String) (env : Env) :
    Except PyExc Json × List Event :=
  market_sentiment_tool stock_name env

/-- `analyst_reports_agent` of `src/app.py`: delegates to the tool. -/
def analyst_reports_agent (stock_name : String) (env : Env) :
    Except PyExc Json × List Event :=
  analyst_reports_tool stock_name env

/-- `expert_opinions_agent` of `src/app.py`: delegates to the tool. -/
def expert_opinions_agent (stock_name : String) (env : Env) :
    Except PyExc Json × List Event :=
  expert_opinions_tool stock_name env

/-- Number of occurrences of an event in a trace. -/
def countEv (e : Event) (tr : List Event) : Nat :=
  tr.countP (fun x => x == e)

/-- Whether an event is a `createAgent` operation. -/
def isCreateAgent : Event → Bool
  | Event.createAgent _ _ => true
  | _ => false

/-- Number of `createAgent` operations in a trace. -/
def countCreateAgent (tr : List Event) : Nat :=
  tr.countP isCreateAgent

/-- Whether `pat` occurs at the head of `s` (character lists). -/
def leadsWith : List Char → List Char → Bool
  | [], _ => true
  | _ :: _, [] => false
  | a :: as, b :: bs => a == b && leadsWith as bs

/-- Whether `pat` occurs as a contiguous run anywhere in `s`
(character lists). -/
def occursIn (pat : List Char) : List Char → Bool
  | [] => leadsWith pat []
  | s@(_ :: rest) => leadsWith pat s || occursIn pat rest

/-- Whether the string `pat` occurs as a substring of `s`. -/
def occursStr (pat s : String) : Bool :=
  occursIn pat.toList s.toList

/-- One transcript entry of the group chat: a speaker and its text. -/
structure Message where
  speaker : String
  content : String

/-- Modelled from the spec: a termination condition of the group-chat
framework (`TextMentionTermination`, `MaxMessageTermination`, and their
combination via the logical-OR operator `|`), which `src/app.py` only
configures; the framework itself is vendor code outside this
repository. -/
inductive TermCond where
  | textMention : String → TermCond
  | maxMessages : Nat → TermCond
  | orCond : TermCond → TermCond → TermCond

/-- Modelled from the spec: whether a termination condition is met by the
transcript.  A text-mention condition is met when the designated phrase
occurs in some delivered message; a max-message condition is met when the
number of messages has reached the bound; an OR combination is met when
either side is. -/
def condMet : TermCond → List Message → Bool
  | TermCond.textMention phrase, msgs =>
      msgs.any (fun m => occursStr phrase m.content)
  | TermCond.maxMessages n, msgs => n ≤ msgs.length
  | TermCond.orCond a b, msgs => condMet a msgs || condMet b msgs

/-- `text_termination` of `src/app.py`: stop once "Decision Made" is in
the response. -/
def text_termination : TermCond := TermCond.textMention "Decision Made"

/-- `max_message_termination` of `src/app.py`: stop after 15 messages. -/
def max_message_termination : TermCond := TermCond.maxMessages 15

/-- `termination` of `src/app.py`: the OR of the two conditions. -/
def termination_cond : TermCond :=
  TermCond.orCond text_termination max_message_termination

/-- Modelled from the spec: configuration of a round-robin group chat —
the participant names in rotation order and the termination condition
evaluated after each turn. -/
structure ChatConfig where
  agents : List String
  cond : TermCond

/-- Modelled from the spec: the round-robin group-chat loop.  Before each
turn the termination condition is evaluated on the transcript; if unmet,
the next speaker in rotation (participant `turn % |agents|`) produces a
message, which is appended, and the loop continues.  `fuel` bounds the
recursion; `chatRun_condMet` below shows the loop always reaches a met
condition before any sufficiently large fuel is exhausted, so the fuel is
inessential. -/
def chatRunAux (cfg : ChatConfig) (oracle : List Message → String) :
    Nat → Nat → List Message → List Message
  | 0, _, msgs => msgs
  | fuel + 1, turn, msgs =>
      if condMet cfg.cond msgs then msgs
      else
        chatRunAux cfg oracle fuel (turn + 1)
          (msgs ++ [⟨cfg.agents.getD (turn % cfg.agents.length) "", oracle msgs⟩])

/-- The fixed rotation order of `investment_team` in `src/app.py`. -/
def investment_team_agents : List String :=
  ["stock_trends_agent", "news_agent", "sentiment_agent", "decision_agent"]

/-- The group-chat configuration of `investment_team` in `src/app.py`:
the four assistants in rotation with the compound termination
condition. -/
def investment_team_cfg : ChatConfig :=
  ⟨investment_team_agents, termination_cond⟩

/-- Modelled from the spec: a run of `investment_team` on a task.  The
transcript starts with the user task message; `oracle` gives each
speaker's reply as a function of the transcript so far (the model-driven
content is a black box).  Fuel 15 suffices: the transcript starts at
length 1 and the max-message bound is 15. -/
def runInvestmentTeam (oracle : List Message → String) (task : String) :
    List Message :=
  chatRunAux investment_team_cfg oracle 15 0 [⟨"user", task⟩]

/-- Configuration of an `AssistantAgent` as constructed in `src/app.py`:
its name, the tool functions attached (by name), and its system
message. -/
structure AssistantAgentCfg where
  name : String
  tools : List String
  system_message : String

/-- `stock_trends_agent_assistant` of `src/app.py`. -/
def stock_trends_agent_assistant : AssistantAgentCfg :=
  ⟨"stock_trends_agent", ["stock_price_trends_agent"],
   "You are the Stock Price Trends Agent. You fetch and summarize stock prices, changes over the last few months, and general market trends. Do NOT provide any final investment decision."⟩

/-- `news_agent_assistant` of `src/app.py`. -/
def news_agent_assistant : AssistantAgentCfg :=
  ⟨"news_agent", ["news_analysis_agent"],
   "You are the News Agent. You retrieve and summarize the latest news stories related to the given stock. Do NOT provide any final investment decision."⟩

/-- `sentiment_agent_assistant` of `src/app.py`. -/
def sentiment_agent_assistant : AssistantAgentCfg :=
  ⟨"sentiment_agent",
   ["market_sentiment_agent", "analyst_reports_agent", "expert_opinions_agent"],
   "You are the Market Sentiment Agent. You gather overall market sentiment, relevant analyst reports, and expert opinions. Do NOT provide any final investment decision."⟩

/-- `decision_agent_assistant` of `src/app.py`: constructed with no
`tools` argument. -/
def decision_agent_assistant : AssistantAgentCfg :=
  ⟨"decision_agent", [],
   "You are the Decision Agent. After reviewing the stock data, news, sentiment, analyst reports, and expert opinions from the other agents, you provide the final investment decision. In the final decision make a call to either Invest or Not. Also providethe current stock price. End your response with \x27Decision Made\x27 once you finalize the decision."⟩

/-- The four assistant configurations, in the order passed to
`RoundRobinGroupChat`. -/
def investment_team_members : List AssistantAgentCfg :=
  [stock_trends_agent_assistant, news_agent_assistant,
   sentiment_agent_assistant, decision_agent_assistant]

/-- The names of the five Bing query tool functions, reached by an
assistant through the correspondingly named wrapper functions. -/
def bingToolWrapperNames : List String :=
  ["stock_price_trends_agent", "news_analysis_agent",
   "market_sentiment_agent", "analyst_reports_agent",
   "expert_opinions_agent"]

/-- Whether an event is the `processRun` operation. -/
def isProcessRun : Event → Bool
  | Event.processRun => true
  | _ => false

/-- Whether an event is the `deleteAgent` operation. -/
def isDeleteA : Event → Bool
  | Event.deleteAgent => true
  | _ => false

/-- Whether an event is the `deleteThread` operation. -/
def isDeleteT : Event → Bool
  | Event.deleteThread => true
  | _ => false

/-- Number of `processRun` operations in a trace. -/
def countProcessRun (tr : List Event) : Nat := tr.countP isProcessRun

/-- Number of `deleteAgent` operations in a trace. -/
def countDeleteAgent (tr : List Event) : Nat := tr.countP isDeleteA

/-- Number of `deleteThread` operations in a trace. -/
def countDeleteThread (tr : List Event) : Nat := tr.countP isDeleteT

/-- Whether a remote call succeeded. -/
def okB {α : Type} : Except PyExc α → Bool
  | Except.ok _ => true
  | Except.error _ => false

/-- The full operation sequence of a successful tool invocation. -/
def fullTrace (agentName instr content : String) : List Event :=
  [Event.createAgent agentName instr, Event.createThread,
   Event.createMessage content, Event.processRun,
   Event.listMessages, Event.deleteAgent]

/-- The operation sequence of an invocation where `create_and_process_run`
raised: it ends at `processRun` — no cleanup, no retry. -/
def runFailTrace (agentName instr content : String) : List Event :=
  [Event.createAgent agentName instr, Event.createThread,
   Event.createMessage content, Event.processRun]

/-- The fixed fallback string the try/except produces for each exception
class. -/
def errFor : PyExc → Json
  | PyExc.keyError => errMissing
  | PyExc.otherExc => errUnexpected

/-- A well-formed `list_messages` reply whose answer extraction
succeeds. -/
def sampleMessages : Json :=
  Json.obj [("data", Json.arr [Json.obj [("content",
    Json.arr [Json.obj [("text",
      Json.obj [("value", Json.str "ANSWER")])]])]])]

/-- A `list_messages` reply lacking the "data" key, on which the answer
extraction raises `KeyError`. -/
def badMessages : Json := Json.obj [("id", Json.str "thread_1")]

/-- Environment in which every remote call succeeds. -/
def envAllOk : Env :=
  ⟨Except.ok (), Except.ok (), Except.ok (), Except.ok (),
   Except.ok sampleMessages, Except.ok ()⟩

/-- Environment in which `create_and_process_run` raises a generic
exception and every other call would succeed. -/
def envRunFails : Env :=
  ⟨Except.ok (), Except.ok (), Except.ok (), Except.error PyExc.otherExc,
   Except.ok sampleMessages, Except.ok ()⟩

/-- Environment in which `create_and_process_run` raises a `KeyError`. -/
def envRunKeyErr : Env :=
  ⟨Except.ok (), Except.ok (), Except.ok (), Except.error PyExc.keyError,
   Except.ok sampleMessages, Except.ok ()⟩

/-- Environment in which `list_messages` raises a generic exception. -/
def envListFails : Env :=
  ⟨Except.ok (), Except.ok (), Except.ok (), Except.ok (),
   Except.error PyExc.otherExc, Except.ok ()⟩

/-- Environment in which every call succeeds but the reply lacks the
expected keys. -/
def envBadMessages : Env :=
  ⟨Except.ok (), Except.ok (), Except.ok (), Except.ok (),
   Except.ok badMessages, Except.ok ()⟩

lemma bingToolCore_success (n i c : String) (env : Env) (msgs : Json)
    (hA : env.createAgentR = Except.ok ()) (hT : env.createThreadR = Except.ok ())
    (hM : env.createMessageR = Except.ok ()) (hR : env.runR = Except.ok ())
    (hL : env.listMessagesR = Except.ok msgs) (hD : env.deleteAgentR = Except.ok ()) :
    bingToolCore n i c env = (extractAnswer msgs, fullTrace n i c) := by
  simp [bingToolCore, hA, hT, hM, hR, hL, hD, fullTrace]

lemma bingToolCore_runError (n i c : String) (env : Env) (e : PyExc)
    (hA : env.createAgentR = Except.ok ()) (hT : env.createThreadR = Except.ok ())
    (hM : env.createMessageR = Except.ok ()) (hR : env.runR = Except.error e) :
    bingToolCore n i c env = (Except.ok (errFor e), runFailTrace n i c) := by
  cases e <;> simp [bingToolCore, hA, hT, hM, hR, errFor, runFailTrace]

lemma bingToolCore_listError (n i c : String) (env : Env) (e : PyExc)
    (hA : env.createAgentR = Except.ok ()) (hT : env.createThreadR = Except.ok ())
    (hM : env.createMessageR = Except.ok ()) (hR : env.runR = Except.ok ())
    (hL : env.listMessagesR = Except.error e) :
    (bingToolCore n i c env).1 = Except.error e := by
  simp [bingToolCore, hA, hT, hM, hR, hL]

lemma countDeleteAgent_core (n i c : String) (env : Env) :
    countDeleteAgent (bingToolCore n i c env).2 =
      if okB env.createAgentR && okB env.createThreadR && okB env.createMessageR
          && okB env.runR && okB env.listMessagesR then 1 else 0 := by
  obtain ⟨cA, cT, cM, r, lM, dA⟩ := env
  rcases cA with e1 | u1 <;> rcases cT with e2 | u2 <;> rcases cM with e3 | u3 <;>
    rcases r with (_ | _) | u4 <;> rcases lM with e5 | m <;> rcases dA with e6 | u6 <;>
    simp [bingToolCore, countDeleteAgent, isDeleteA, okB,
      List.countP_cons, List.countP_nil]

lemma countDeleteThread_core (n i c : String) (env : Env) :
    countDeleteThread (bingToolCore n i c env).2 = 0 := by
  obtain ⟨cA, cT, cM, r, lM, dA⟩ := env
  rcases cA with e1 | u1 <;> rcases cT with e2 | u2 <;> rcases cM with e3 | u3 <;>
    rcases r with (_ | _) | u4 <;> rcases lM with e5 | m <;> rcases dA with e6 | u6 <;>
    simp [bingToolCore, countDeleteThread, isDeleteT,
      List.countP_cons, List.countP_nil]

/-- Default message used by `speakerAt`. -/
def noMessage : Message := ⟨"", ""⟩

/-- Speaker of the transcript entry at a position. -/
def speakerAt (msgs : List Message) (i : Nat) : String :=
  (msgs.getD i noMessage).speaker

lemma chatRunAux_condMet (cfg : ChatConfig) (oracle : List Message → String)
    (n : Nat) (c : TermCond)
    (hc : cfg.cond = TermCond.orCond c (TermCond.maxMessages n)) :
    ∀ fuel turn msgs, n ≤ msgs.length + fuel →
      condMet cfg.cond (chatRunAux cfg oracle fuel turn msgs) = true := by
  intro fuel
  induction fuel with
  | zero =>
      intro turn msgs h
      rw [chatRunAux, hc]
      simp [condMet]
      right
      omega
  | succ fuel ih =>
      intro turn msgs h
      rw [chatRunAux]
      by_cases hstop : condMet cfg.cond msgs = true
      · simp [hstop]
      · simp only [hstop, Bool.false_eq_true, if_false]
        apply ih
        simp
        omega

lemma chatRunAux_speakers (cfg : ChatConfig) (oracle : List Message → String) :
    ∀ fuel turn msgs, turn + 1 = msgs.length →
      (∀ i, i + 1 < msgs.length →
        speakerAt msgs (i + 1) = cfg.agents.getD (i % cfg.agents.length) "") →
      ∀ i, i + 1 < (chatRunAux cfg oracle fuel turn msgs).length →
        speakerAt (chatRunAux cfg oracle fuel turn msgs) (i + 1) =
          cfg.agents.getD (i % cfg.agents.length) "" := by
  intro fuel
  induction fuel with
  | zero =>
      intro turn msgs hlen hinv i hi
      rw [chatRunAux] at hi ⊢
      exact hinv i hi
  | succ fuel ih =>
      intro turn msgs hlen hinv i hi
      rw [chatRunAux] at hi ⊢
      by_cases hstop : condMet cfg.cond msgs = true
      · simp only [hstop, if_true] at hi ⊢
        exact hinv i hi
      · simp only [hstop, Bool.false_eq_true, if_false] at hi ⊢
        apply ih (turn + 1) _ (by simp; omega) _ i hi
        intro j hj
        simp only [List.length_append, List.length_cons, List.length_nil] at hj
        rcases Nat.lt_or_ge (j + 1) msgs.length with hlt | hge
        · rw [speakerAt, List.getD_append _ _ _ _ hlt]
          exact hinv j hlt
        · have hj1 : j + 1 = msgs.length := by omega
          have hjt : j = turn := by omega
          rw [speakerAt, List.getD_append_right _ _ _ _ (le_of_eq hj1.symm)]
          have h0 : turn + 1 - msgs.length = 0 := by omega
          simp [hjt, h0]

lemma countProcessRun_core (n i c : String) (env : Env) :
    countProcessRun (bingToolCore n i c env).2 ≤ 1 := by
  obtain ⟨cA, cT, cM, r, lM, dA⟩ := env
  rcases cA with e1 | u1 <;> rcases cT with e2 | u2 <;> rcases cM with e3 | u3 <;>
    rcases r with (_ | _) | u4 <;> rcases lM with e5 | m <;> rcases dA with e6 | u6 <;>
    simp [bingToolCore, countProcessRun, isProcessRun,
      List.countP_cons, List.countP_nil]

/-- Whether an invocation reaches the cleanup line of the source (all the
calls before `delete_agent` succeeded). -/
def reachesCleanup (env : Env) : Bool :=
  okB env.createAgentR && okB env.createThreadR && okB env.createMessageR
    && okB env.runR && okB env.listMessagesR

lemma core_fst_runError (n i c : String) (env : Env) (e : PyExc)
    (hA : env.createAgentR = Except.ok ()) (hT : env.createThreadR = Except.ok ())
    (hM : env.createMessageR = Except.ok ()) (hR : env.runR = Except.error e) :
    (bingToolCore n i c env).1 = Except.ok (errFor e) := by
  rw [bingToolCore_runError n i c env e hA hT hM hR]

lemma core_snd_runError (n i c : String) (env : Env) (e : PyExc)
    (hA : env.createAgentR = Except.ok ()) (hT : env.createThreadR = Except.ok ())
    (hM : env.createMessageR = Except.ok ()) (hR : env.runR = Except.error e) :
    (bingToolCore n i c env).2 = runFailTrace n i c := by
  rw [bingToolCore_runError n i c env e hA hT hM hR]

lemma core_fst_createAgentError (n i c : String) (env : Env) (e : PyExc)
    (hA : env.createAgentR = Except.error e) :
    (bingToolCore n i c env).1 = Except.error e := by
  simp [bingToolCore, hA]

lemma core_fst_createThreadError (n i c : String) (env : Env) (e : PyExc)
    (hA : env.createAgentR = Except.ok ())
    (hT : env.createThreadR = Except.error e) :
    (bingToolCore n i c env).1 = Except.error e := by
  simp [bingToolCore, hA, hT]

lemma core_fst_createMessageError (n i c : String) (env : Env) (e : PyExc)
    (hA : env.createAgentR = Except.ok ())
    (hT : env.createThreadR = Except.ok ())
    (hM : env.createMessageR = Except.error e) :
    (bingToolCore n i c env).1 = Except.error e := by
  simp [bingToolCore, hA, hT, hM]

lemma core_fst_deleteAgentError (n i c : String) (env : Env) (msgs : Json)
    (e : PyExc)
    (hA : env.createAgentR = Except.ok ())
    (hT : env.createThreadR = Except.ok ())
    (hM : env.createMessageR = Except.ok ())
    (hR : env.runR = Except.ok ())
    (hL : env.listMessagesR = Except.ok msgs)
    (hD : env.deleteAgentR = Except.error e) :
    (bingToolCore n i c env).1 = Except.error e := by
  simp [bingToolCore, hA, hT, hM, hR, hL, hD]

lemma core_fst_success (n i c : String) (env : Env) (msgs : Json)
    (hA : env.createAgentR = Except.ok ()) (hT : env.createThreadR = Except.ok ())
    (hM : env.createMessageR = Except.ok ()) (hR : env.runR = Except.ok ())
    (hL : env.listMessagesR = Except.ok msgs) (hD : env.deleteAgentR = Except.ok ()) :
    (bingToolCore n i c env).1 = extractAnswer msgs := by
  rw [bingToolCore_success n i c env msgs hA hT hM hR hL hD]

/-- C1: every run of the round-robin group chat terminates, and at
termination the compound stop condition — the logical OR of the
text-mention condition and the max-message-count condition — is met:
the transcript mentions "Decision Made" or the number of messages has
reached the configured maximum of 15. -/
theorem c1_run_terminates_with_stop_condition
    (oracle : List Message → String) (task : String) :
    condMet termination_cond (runInvestmentTeam oracle task) = true ∧
    ((∃ m ∈ runInvestmentTeam oracle task,
        occursStr "Decision Made" m.content = true) ∨
      15 ≤ (runInvestmentTeam oracle task).length) := by
  have h : condMet
      (TermCond.orCond (TermCond.textMention "Decision Made")
        (TermCond.maxMessages 15)) (runInvestmentTeam oracle task) = true :=
    chatRunAux_condMet investment_team_cfg oracle 15 text_termination rfl
      15 0 [⟨"user", task⟩] (by simp)
  refine ⟨h, ?_⟩
  have h2 := h
  simp only [condMet, Bool.or_eq_true, List.any_eq_true, decide_eq_true_eq] at h2
  exact h2

/-- C5: the transcript of every run follows the strict round-robin
rotation: agent message number i (position i + 1 of the transcript, after
the initial user task) is spoken by participant i mod 4 of the fixed
order stock_trends_agent, news_agent, sentiment_agent, decision_agent.
Turns are sequential by construction of the loop. -/
theorem c5_round_robin_speaker_order
    (oracle : List Message → String) (task : String) (i : Nat)
    (hi : i + 1 < (runInvestmentTeam oracle task).length) :
    speakerAt (runInvestmentTeam oracle task) (i + 1) =
      investment_team_agents.getD (i % 4) "" := by
  exact chatRunAux_speakers investment_team_cfg oracle 15 0 [⟨"user", task⟩]
    rfl (by intro j hj; simp at hj) i hi

/-- Constant reply used to exercise the chat model on a concrete run. -/
def oracleDecision : List Message → String := fun _ => "Decision Made"

/-- C5 witness: on a concrete run whose first speaker immediately says
"Decision Made", the transcript has an entry at position 1 and its
speaker is the first participant of the rotation. -/
theorem c5_round_robin_speaker_order_witness :
    0 + 1 < (runInvestmentTeam oracleDecision "analyze tata motors").length ∧
    speakerAt (runInvestmentTeam oracleDecision "analyze tata motors") (0 + 1) =
      investment_team_agents.getD (0 % 4) "" :=
  ⟨by decide,
   c5_round_robin_speaker_order oracleDecision "analyze tata motors" 0 (by decide)⟩

/-- C2 counterexample: when `create_and_process_run` raises a generic
exception, the invocation returns the fallback string — so it returns
normally — yet performs no `delete_agent` call at all: the agent is not
deleted exactly once on this path. -/
theorem c2_delete_skipped_counterexample :
    (stock_price_trends_tool "tata motors" envRunFails).1 = Except.ok errUnexpected ∧
    countDeleteAgent (stock_price_trends_tool "tata motors" envRunFails).2 ≠ 1 :=
  ⟨rfl, by decide⟩

/-- C2 amended: the remote agent is deleted exactly once on invocations
that reach the cleanup line (all remote calls up to `list_messages`
succeeded), and zero times on the early-return error paths — for each of
the five tool functions. -/
theorem c2_delete_once_iff_cleanup_reached (stock_name : String) (env : Env) :
    countDeleteAgent (stock_price_trends_tool stock_name env).2 =
      (if reachesCleanup env then 1 else 0) ∧
    countDeleteAgent (news_analysis_tool stock_name env).2 =
      (if reachesCleanup env then 1 else 0) ∧
    countDeleteAgent (market_sentiment_tool stock_name env).2 =
      (if reachesCleanup env then 1 else 0) ∧
    countDeleteAgent (analyst_reports_tool stock_name env).2 =
      (if reachesCleanup env then 1 else 0) ∧
    countDeleteAgent (expert_opinions_tool stock_name env).2 =
      (if reachesCleanup env then 1 else 0) :=
  ⟨countDeleteAgent_core _ _ _ env, countDeleteAgent_core _ _ _ env,
   countDeleteAgent_core _ _ _ env, countDeleteAgent_core _ _ _ env,
   countDeleteAgent_core _ _ _ env⟩

/-- C4 counterexample: even on a fully successful invocation the trace
contains no thread deletion: the thread is not torn down within the
invocation, so it outlives it. -/
theorem c4_thread_not_deleted_counterexample :
    (stock_price_trends_tool "tata motors" envAllOk).1 =
      Except.ok (Json.str "ANSWER") ∧
    countDeleteThread (stock_price_trends_tool "tata motors" envAllOk).2 = 0 :=
  ⟨rfl, by decide⟩

/-- C4 amended: the remote agent and the thread are both created within
the invocation, but only the agent is ever deleted: no path of any of the
five tool functions performs a thread deletion. -/
theorem c4_thread_never_deleted (stock_name : String) (env : Env) :
    countDeleteThread (stock_price_trends_tool stock_name env).2 = 0 ∧
    countDeleteThread (news_analysis_tool stock_name env).2 = 0 ∧
    countDeleteThread (market_sentiment_tool stock_name env).2 = 0 ∧
    countDeleteThread (analyst_reports_tool stock_name env).2 = 0 ∧
    countDeleteThread (expert_opinions_tool stock_name env).2 = 0 :=
  ⟨countDeleteThread_core _ _ _ env, countDeleteThread_core _ _ _ env,
   countDeleteThread_core _ _ _ env, countDeleteThread_core _ _ _ env,
   countDeleteThread_core _ _ _ env⟩

/-- C3 counterexample: a remote-call failure raised by `list_messages`
is not caught: the invocation propagates the exception instead of
returning a fixed error string. -/
theorem c3_listmessages_failure_propagates :
    (news_analysis_tool "tata motors" envListFails).1 =
      Except.error PyExc.otherExc := rfl

/-- C3 amended: only failures raised by `create_and_process_run` are
caught, in exactly the two stated categories (KeyError yields the
missing-information string, any other exception yields the
unexpected-issue string); failures of every other remote call —
`create_agent`, `create_thread`, `create_message`, `list_messages` and
`delete_agent` — propagate uncaught, for each of the five tool
functions. -/
theorem c3_two_error_categories (stock_name : String) (env : Env) :
    (env.createAgentR = Except.ok () → env.createThreadR = Except.ok () →
     env.createMessageR = Except.ok () →
      (env.runR = Except.error PyExc.keyError →
        (stock_price_trends_tool stock_name env).1 = Except.ok errMissing ∧
        (news_analysis_tool stock_name env).1 = Except.ok errMissing ∧
        (market_sentiment_tool stock_name env).1 = Except.ok errMissing ∧
        (analyst_reports_tool stock_name env).1 = Except.ok errMissing ∧
        (expert_opinions_tool stock_name env).1 = Except.ok errMissing) ∧
      (env.runR = Except.error PyExc.otherExc →
        (stock_price_trends_tool stock_name env).1 = Except.ok errUnexpected ∧
        (news_analysis_tool stock_name env).1 = Except.ok errUnexpected ∧
        (market_sentiment_tool stock_name env).1 = Except.ok errUnexpected ∧
        (analyst_reports_tool stock_name env).1 = Except.ok errUnexpected ∧
        (expert_opinions_tool stock_name env).1 = Except.ok errUnexpected)) ∧
    (∀ e, env.createAgentR = Except.error e →
      (stock_price_trends_tool stock_name env).1 = Except.error e ∧
      (news_analysis_tool stock_name env).1 = Except.error e ∧
      (market_sentiment_tool stock_name env).1 = Except.error e ∧
      (analyst_reports_tool stock_name env).1 = Except.error e ∧
      (expert_opinions_tool stock_name env).1 = Except.error e) ∧
    (∀ e, env.createAgentR = Except.ok () →
      env.createThreadR = Except.error e →
      (stock_price_trends_tool stock_name env).1 = Except.error e ∧
      (news_analysis_tool stock_name env).1 = Except.error e ∧
      (market_sentiment_tool stock_name env).1 = Except.error e ∧
      (analyst_reports_tool stock_name env).1 = Except.error e ∧
      (expert_opinions_tool stock_name env).1 = Except.error e) ∧
    (∀ e, env.createAgentR = Except.ok () → env.createThreadR = Except.ok () →
      env.createMessageR = Except.error e →
      (stock_price_trends_tool stock_name env).1 = Except.error e ∧
      (news_analysis_tool stock_name env).1 = Except.error e ∧
      (market_sentiment_tool stock_name env).1 = Except.error e ∧
      (analyst_reports_tool stock_name env).1 = Except.error e ∧
      (expert_opinions_tool stock_name env).1 = Except.error e) ∧
    (∀ e, env.createAgentR = Except.ok () → env.createThreadR = Except.ok () →
      env.createMessageR = Except.ok () → env.runR = Except.ok () →
      env.listMessagesR = Except.error e →
      (stock_price_trends_tool stock_name env).1 = Except.error e ∧
      (news_analysis_tool stock_name env).1 = Except.error e ∧
      (market_sentiment_tool stock_name env).1 = Except.error e ∧
      (analyst_reports_tool stock_name env).1 = Except.error e ∧
      (expert_opinions_tool stock_name env).1 = Except.error e) ∧
    (∀ msgs e, env.createAgentR = Except.ok () → env.createThreadR = Except.ok () →
      env.createMessageR = Except.ok () → env.runR = Except.ok () →
      env.listMessagesR = Except.ok msgs → env.deleteAgentR = Except.error e →
      (stock_price_trends_tool stock_name env).1 = Except.error e ∧
      (news_analysis_tool stock_name env).1 = Except.error e ∧
      (market_sentiment_tool stock_name env).1 = Except.error e ∧
      (analyst_reports_tool stock_name env).1 = Except.error e ∧
      (expert_opinions_tool stock_name env).1 = Except.error e) :=
  ⟨fun hA hT hM =>
    ⟨fun hR =>
      ⟨core_fst_runError _ _ _ env _ hA hT hM hR,
       core_fst_runError _ _ _ env _ hA hT hM hR,
       core_fst_runError _ _ _ env _ hA hT hM hR,
       core_fst_runError _ _ _ env _ hA hT hM hR,
       core_fst_runError _ _ _ env _ hA hT hM hR⟩,
     fun hR =>
      ⟨core_fst_runError _ _ _ env _ hA hT hM hR,
       core_fst_runError _ _ _ env _ hA hT hM hR,
       core_fst_runError _ _ _ env _ hA hT hM hR,
       core_fst_runError _ _ _ env _ hA hT hM hR,
       core_fst_runError _ _ _ env _ hA hT hM hR⟩⟩,
   fun e hA =>
    ⟨core_fst_createAgentError _ _ _ env e hA,
     core_fst_createAgentError _ _ _ env e hA,
     core_fst_createAgentError _ _ _ env e hA,
     core_fst_createAgentError _ _ _ env e hA,
     core_fst_createAgentError _ _ _ env e hA⟩,
   fun e hA hT =>
    ⟨core_fst_createThreadError _ _ _ env e hA hT,
     core_fst_createThreadError _ _ _ env e hA hT,
     core_fst_createThreadError _ _ _ env e hA hT,
     core_fst_createThreadError _ _ _ env e hA hT,
     core_fst_createThreadError _ _ _ env e hA hT⟩,
   fun e hA hT hM =>
    ⟨core_fst_createMessageError _ _ _ env e hA hT hM,
     core_fst_createMessageError _ _ _ env e hA hT hM,
     core_fst_createMessageError _ _ _ env e hA hT hM,
     core_fst_createMessageError _ _ _ env e hA hT hM,
     core_fst_createMessageError _ _ _ env e hA hT hM⟩,
   fun e hA hT hM hR hL =>
    ⟨bingToolCore_listError _ _ _ env e hA hT hM hR hL,
     bingToolCore_listError _ _ _ env e hA hT hM hR hL,
     bingToolCore_listError _ _ _ env e hA hT hM hR hL,
     bingToolCore_listError _ _ _ env e hA hT hM hR hL,
     bingToolCore_listError _ _ _ env e hA hT hM hR hL⟩,
   fun msgs e hA hT hM hR hL hD =>
    ⟨core_fst_deleteAgentError _ _ _ env msgs e hA hT hM hR hL hD,
     core_fst_deleteAgentError _ _ _ env msgs e hA hT hM hR hL hD,
     core_fst_deleteAgentError _ _ _ env msgs e hA hT hM hR hL hD,
     core_fst_deleteAgentError _ _ _ env msgs e hA hT hM hR hL hD,
     core_fst_deleteAgentError _ _ _ env msgs e hA hT hM hR hL hD⟩⟩

/-- Environment in which `create_agent` itself raises a generic
exception. -/
def envCreateAgentFails : Env :=
  ⟨Except.error PyExc.otherExc, Except.ok (), Except.ok (), Except.ok (),
   Except.ok sampleMessages, Except.ok ()⟩

/-- C3 witness: in the environment where `create_and_process_run` raises
a KeyError the first tool returns the missing-information string, and in
the environment where `create_agent` raises a generic exception the
first tool propagates exactly that exception. -/
theorem c3_two_error_categories_witness :
    envRunKeyErr.createAgentR = Except.ok () ∧
    envRunKeyErr.runR = Except.error PyExc.keyError ∧
    (stock_price_trends_tool "tata motors" envRunKeyErr).1 = Except.ok errMissing ∧
    envCreateAgentFails.createAgentR = Except.error PyExc.otherExc ∧
    (stock_price_trends_tool "tata motors" envCreateAgentFails).1 =
      Except.error PyExc.otherExc :=
  ⟨rfl, rfl,
   ((((c3_two_error_categories "tata motors" envRunKeyErr).1 rfl rfl rfl).1) rfl).1,
   rfl,
   ((c3_two_error_categories "tata motors" envCreateAgentFails).2.1
      PyExc.otherExc rfl).1⟩

/-- C6: every successful invocation of each of the five tool functions
performs, in this order, exactly: create the remote agent, create the
thread, post the user query message, process the run, read the result
messages, delete the remote agent — and returns the extracted answer. -/
theorem c6_success_sequence (stock_name : String) (env : Env) (msgs v : Json)
    (hA : env.createAgentR = Except.ok ())
    (hT : env.createThreadR = Except.ok ())
    (hM : env.createMessageR = Except.ok ())
    (hR : env.runR = Except.ok ())
    (hL : env.listMessagesR = Except.ok msgs)
    (hD : env.deleteAgentR = Except.ok ())
    (hE : extractAnswer msgs = Except.ok v) :
    (∃ a b c, stock_price_trends_tool stock_name env = (Except.ok v, fullTrace a b c)) ∧
    (∃ a b c, news_analysis_tool stock_name env = (Except.ok v, fullTrace a b c)) ∧
    (∃ a b c, market_sentiment_tool stock_name env = (Except.ok v, fullTrace a b c)) ∧
    (∃ a b c, analyst_reports_tool stock_name env = (Except.ok v, fullTrace a b c)) ∧
    (∃ a b c, expert_opinions_tool stock_name env = (Except.ok v, fullTrace a b c)) :=
  ⟨⟨_, _, _, by rw [stock_price_trends_tool,
      bingToolCore_success _ _ _ env msgs hA hT hM hR hL hD, hE]⟩,
   ⟨_, _, _, by rw [news_analysis_tool,
      bingToolCore_success _ _ _ env msgs hA hT hM hR hL hD, hE]⟩,
   ⟨_, _, _, by rw [market_sentiment_tool,
      bingToolCore_success _ _ _ env msgs hA hT hM hR hL hD, hE]⟩,
   ⟨_, _, _, by rw [analyst_reports_tool,
      bingToolCore_success _ _ _ env msgs hA hT hM hR hL hD, hE]⟩,
   ⟨_, _, _, by rw [expert_opinions_tool,
      bingToolCore_success _ _ _ env msgs hA hT hM hR hL hD, hE]⟩⟩

/-- C6 witness: in the all-success environment with a well-formed reply,
the first tool returns the extracted answer with the full operation
sequence. -/
theorem c6_success_sequence_witness :
    extractAnswer sampleMessages = Except.ok (Json.str "ANSWER") ∧
    (∃ a b c, stock_price_trends_tool "tata motors" envAllOk =
      (Except.ok (Json.str "ANSWER"), fullTrace a b c)) :=
  ⟨rfl,
   (c6_success_sequence "tata motors" envAllOk sampleMessages (Json.str "ANSWER")
      rfl rfl rfl rfl rfl rfl rfl).1⟩

/-- C7: the hosted run is started at most once per invocation, and when
`create_and_process_run` raises, the function immediately returns the
fallback error string matching the exception class: the trace ends at the
single `processRun` operation — no retry, no cancellation, no timeout. -/
theorem c7_run_at_most_once (stock_name : String) (env : Env) :
    (countProcessRun (stock_price_trends_tool stock_name env).2 ≤ 1 ∧
     countProcessRun (news_analysis_tool stock_name env).2 ≤ 1 ∧
     countProcessRun (market_sentiment_tool stock_name env).2 ≤ 1 ∧
     countProcessRun (analyst_reports_tool stock_name env).2 ≤ 1 ∧
     countProcessRun (expert_opinions_tool stock_name env).2 ≤ 1) ∧
    (∀ e, env.createAgentR = Except.ok () → env.createThreadR = Except.ok () →
      env.createMessageR = Except.ok () → env.runR = Except.error e →
      (stock_price_trends_tool stock_name env).1 = Except.ok (errFor e) ∧
      (∃ a b c, (stock_price_trends_tool stock_name env).2 = runFailTrace a b c) ∧
      (∃ a b c, (news_analysis_tool stock_name env).2 = runFailTrace a b c) ∧
      (∃ a b c, (market_sentiment_tool stock_name env).2 = runFailTrace a b c) ∧
      (∃ a b c, (analyst_reports_tool stock_name env).2 = runFailTrace a b c) ∧
      (∃ a b c, (expert_opinions_tool stock_name env).2 = runFailTrace a b c)) :=
  ⟨⟨countProcessRun_core _ _ _ env, countProcessRun_core _ _ _ env,
    countProcessRun_core _ _ _ env, countProcessRun_core _ _ _ env,
    countProcessRun_core _ _ _ env⟩,
   fun e hA hT hM hR =>
    ⟨core_fst_runError _ _ _ env e hA hT hM hR,
     ⟨_, _, _, core_snd_runError _ _ _ env e hA hT hM hR⟩,
     ⟨_, _, _, core_snd_runError _ _ _ env e hA hT hM hR⟩,
     ⟨_, _, _, core_snd_runError _ _ _ env e hA hT hM hR⟩,
     ⟨_, _, _, core_snd_runError _ _ _ env e hA hT hM hR⟩,
     ⟨_, _, _, core_snd_runError _ _ _ env e hA hT hM hR⟩⟩⟩

/-- C7 witness: in the environment where the run raises a generic
exception, the first tool returns the unexpected-issue string and its
trace is the four-operation sequence ending at `processRun`. -/
theorem c7_run_at_most_once_witness :
    envRunFails.runR = Except.error PyExc.otherExc ∧
    (stock_price_trends_tool "tata motors" envRunFails).1 =
      Except.ok (errFor PyExc.otherExc) :=
  ⟨rfl,
   ((c7_run_at_most_once "tata motors" envRunFails).2 PyExc.otherExc
      rfl rfl rfl rfl).1⟩

/-- C8: when every remote call succeeds, the returned value of each of
the five tool functions is exactly the extraction
messages["data"][0]["content"][0]["text"]["value"] applied to the listed
messages — including when the extraction raises: the invocation then
propagates that exception uncaught instead of returning an error
string. -/
theorem c8_extraction_outside_handler (stock_name : String) (env : Env)
    (msgs : Json)
    (hA : env.createAgentR = Except.ok ())
    (hT : env.createThreadR = Except.ok ())
    (hM : env.createMessageR = Except.ok ())
    (hR : env.runR = Except.ok ())
    (hL : env.listMessagesR = Except.ok msgs)
    (hD : env.deleteAgentR = Except.ok ()) :
    (stock_price_trends_tool stock_name env).1 = extractAnswer msgs ∧
    (news_analysis_tool stock_name env).1 = extractAnswer msgs ∧
    (market_sentiment_tool stock_name env).1 = extractAnswer msgs ∧
    (analyst_reports_tool stock_name env).1 = extractAnswer msgs ∧
    (expert_opinions_tool stock_name env).1 = extractAnswer msgs :=
  ⟨core_fst_success _ _ _ env msgs hA hT hM hR hL hD,
   core_fst_success _ _ _ env msgs hA hT hM hR hL hD,
   core_fst_success _ _ _ env msgs hA hT hM hR hL hD,
   core_fst_success _ _ _ env msgs hA hT hM hR hL hD,
   core_fst_success _ _ _ env msgs hA hT hM hR hL hD⟩

/-- C8 witness: with a reply lacking the "data" key, the extraction
raises KeyError and the first tool propagates exactly that exception. -/
theorem c8_extraction_outside_handler_witness :
    extractAnswer badMessages = Except.error PyExc.keyError ∧
    (stock_price_trends_tool "tata motors" envBadMessages).1 =
      extractAnswer badMessages :=
  ⟨rfl,
   (c8_extraction_outside_handler "tata motors" envBadMessages badMessages
      rfl rfl rfl rfl rfl rfl).1⟩

/-- C9: each of the five agent wrapper functions is a pure delegation to
its corresponding tool function. -/
theorem c9_wrappers_delegate (stock_name : String) (env : Env) :
    stock_price_trends_agent stock_name env = stock_price_trends_tool stock_name env ∧
    news_analysis_agent stock_name env = news_analysis_tool stock_name env ∧
    market_sentiment_agent stock_name env = market_sentiment_tool stock_name env ∧
    analyst_reports_agent stock_name env = analyst_reports_tool stock_name env ∧
    expert_opinions_agent stock_name env = expert_opinions_tool stock_name env :=
  ⟨rfl, rfl, rfl, rfl, rfl⟩

set_option maxRecDepth 4000 in
/-- C10: the decision agent is constructed with no tools attached; the
team members whose tool lists reach any of the five Bing tool functions
are exactly the three research agents; and the only member whose system
message contains the termination phrase "Decision Made" is the decision
agent. -/
theorem c10_decision_agent_tool_free :
    decision_agent_assistant.tools = [] ∧
    ((investment_team_members.filter
        (fun a => a.tools.any (fun t => bingToolWrapperNames.contains t))).map
      (fun a => a.name)) =
      ["stock_trends_agent", "news_agent", "sentiment_agent"] ∧
    ((investment_team_members.filter
        (fun a => occursStr "Decision Made" a.system_message)).map
      (fun a => a.name)) = ["decision_agent"] := by
  refine ⟨rfl, by decide, by decide⟩
